import Mathlib

/-!
# Verification of the video-provider URL resolution and upload utilities

Shallow embedding of `src/lib/config.ts`. JavaScript strings are modelled as
Lean `String` (a list of characters); the WHATWG `URL` constructor used by the
code is modelled by `parseURL` below (scheme, hostname, port, pathname, search
and `URLSearchParams` lookup, including hostname lowercasing, dot-segment
removal in hierarchical paths and default-port elision; percent-encoding of
hosts/paths and IDNA are not modelled). Network requests, DOM video frame
rendering and image decoding are modelled as explicit oracles; the two
module-level caches (`thumbnailCache`, `vimeoThumbnailCache`) are association
lists threaded through the functions that read or write them.
-/

set_option autoImplicit false

universe u

/-! ## JavaScript string primitives -/

/-- `String.prototype.includes` on character lists: does `hay` contain the
contiguous segment `needle`? -/
def containsSeg (needle : List Char) : List Char → Bool
  | [] => needle.isEmpty
  | c :: t => needle.isPrefixOf (c :: t) || containsSeg needle t

/-- JS `s.includes(sub)`. -/
def jsIncludes (s sub : String) : Bool := containsSeg sub.data s.data

/-- JS `String.prototype.replace` with a plain-string pattern: only the first
occurrence is replaced. -/
def replaceOnce (needle repl : List Char) : List Char → List Char
  | [] => if needle.isEmpty then repl else []
  | c :: t =>
    if needle.isPrefixOf (c :: t) then repl ++ (c :: t).drop needle.length
    else c :: replaceOnce needle repl t

/-- JS `s.replace(pat, rep)` (first occurrence only). -/
def jsReplace (s pat rep : String) : String := ⟨replaceOnce pat.data rep.data s.data⟩

/-- JS `String.prototype.split` with a one-character separator, on character
lists.  Always returns a non-empty list of fields. -/
def splitList (sep : Char) : List Char → List (List Char)
  | [] => [[]]
  | c :: t =>
    let r := splitList sep t
    if c = sep then [] :: r
    else
      match r with
      | [] => [[c]]
      | h :: t2 => (c :: h) :: t2

/-- JS `s.split(sep)` for a single-character separator. -/
def jsSplit (s : String) (sep : Char) : List String :=
  (splitList sep s.data).map (fun l => ⟨l⟩)

/-- JS `s.charAt(i)`: one-character string, or `""` out of range. -/
def charAt (s : String) (i : Nat) : String :=
  match s.data.drop i with
  | [] => ""
  | c :: _ => ⟨[c]⟩

/-- Value of a hexadecimal digit, if any. -/
def hexVal (c : Char) : Option Nat :=
  if c.toNat ≥ 48 ∧ c.toNat ≤ 57 then some (c.toNat - 48)
  else if c.toNat ≥ 65 ∧ c.toNat ≤ 70 then some (c.toNat - 55)
  else if c.toNat ≥ 97 ∧ c.toNat ≤ 102 then some (c.toNat - 87)
  else none

/-- Percent-decoding as applied by `URLSearchParams` to names and values
(`+` becomes a space; a malformed escape is kept verbatim; multi-byte UTF-8
escapes are decoded byte-by-byte, which agrees with the browser on the ASCII
inputs this development uses). -/
def pctDecode : List Char → List Char
  | [] => []
  | '%' :: a :: b :: t =>
    match hexVal a, hexVal b with
    | some x, some y => Char.ofNat (16 * x + y) :: pctDecode t
    | _, _ => '%' :: pctDecode (a :: b :: t)
  | '+' :: t => ' ' :: pctDecode t
  | c :: t => c :: pctDecode t

/-- Uppercase hexadecimal digit of `n < 16`. -/
def hexDigit (n : Nat) : Char :=
  if n < 10 then Char.ofNat (48 + n) else Char.ofNat (55 + n)

/-- UTF-8 bytes of a character. -/
def utf8Bytes (c : Char) : List Nat :=
  let n := c.toNat
  if n < 128 then [n]
  else if n < 2048 then [192 + n / 64, 128 + n % 64]
  else if n < 65536 then [224 + n / 4096, 128 + (n / 64) % 64, 128 + n % 64]
  else [240 + n / 262144, 128 + (n / 4096) % 64, 128 + (n / 64) % 64, 128 + n % 64]

/-- Characters that JS `encodeURIComponent` leaves unescaped. -/
def uriUnreserved (c : Char) : Bool :=
  c.isAlpha || c.isDigit || c = '-' || c = '_' || c = '.' || c = '!' || c = '~' ||
  c = '*' || c = '(' || c = ')' || c.toNat = 39

/-- JS `encodeURIComponent`. -/
def encodeURIComponent (s : String) : String :=
  ⟨s.data.foldr
    (fun c acc =>
      if uriUnreserved c then c :: acc
      else (utf8Bytes c).foldr (fun b a => '%' :: hexDigit (b / 16) :: hexDigit (b % 16) :: a) acc)
    []⟩

/-! ## The WHATWG `URL` model -/

/-- The fields of a parsed URL object that the code under verification reads. -/
structure URLObj where
  scheme : String
  hostname : String
  port : String
  pathname : String
  /-- query string without the leading `?` -/
  search : String
deriving DecidableEq

/-- Schemes the WHATWG parser treats as special (the `file` scheme is not
modelled; the code under verification never produces it). -/
def specialScheme (s : String) : Bool :=
  s = "http" || s = "https" || s = "ws" || s = "wss" || s = "ftp"

/-- A valid scheme: a letter followed by letters, digits, `+`, `-` or `.`. -/
def schemeOk : List Char → Bool
  | [] => false
  | c :: t => c.isAlpha && t.all (fun d => d.isAlpha || d.isDigit || d = '+' || d = '-' || d = '.')

/-- Split `scheme:rest` at the first colon. -/
def takeScheme (s : List Char) : Option (List Char × List Char) :=
  let pre := s.takeWhile (fun c => c != ':')
  if pre.length = s.length then none else some (pre, s.drop (pre.length + 1))

/-- Default port of a special scheme. -/
def defaultPort (scheme : String) : Option Nat :=
  if scheme = "http" || scheme = "ws" then some 80
  else if scheme = "https" || scheme = "wss" then some 443
  else if scheme = "ftp" then some 21
  else none

/-- Code points that make a host invalid (the WHATWG forbidden host code
points that can still occur after authority delimiting). -/
def forbiddenHostChar (c : Char) : Bool :=
  c = ' ' || c = '<' || c = '>' || c = '[' || c = ']' || c = '^' || c = '|'

/-- Split an authority into lowercased host and normalised port; `none` if the
port is not numeric or the host contains a forbidden character. Userinfo
(anything up to the last `@`) is dropped, default ports are elided. -/
def parseHostPort (scheme : String) (auth : List Char) : Option (String × String) :=
  let hp := (splitList '@' auth).getLastD []
  let hostRaw := hp.takeWhile (fun c => c != ':')
  let portRaw := hp.drop (hostRaw.length + 1)
  if hostRaw.any forbiddenHostChar then none
  else
    let host : String := ⟨hostRaw.map Char.toLower⟩
    if portRaw.isEmpty then some (host, "")
    else
      match (⟨portRaw⟩ : String).toNat? with
      | none => none
      | some n => if defaultPort scheme = some n then some (host, "") else some (host, toString n)

/-- WHATWG dot-segment removal over the `/`-separated segments of a path. -/
def dotNorm (stack : List (List Char)) : List (List Char) → List (List Char)
  | [] => stack.reverse
  | seg :: rest =>
    if seg = ['.', '.'] then
      let stack2 := match stack with | [] => ([] : List (List Char)) | _ :: t => t
      if rest.isEmpty then (([] : List Char) :: stack2).reverse else dotNorm stack2 rest
    else if seg = ['.'] then
      if rest.isEmpty then (([] : List Char) :: stack).reverse else dotNorm stack rest
    else dotNorm (seg :: stack) rest

/-- Normalise a hierarchical path (dot-segment removal, leading slash). -/
def normalizePath (special : Bool) (raw : List Char) : String :=
  match raw with
  | [] => if special then "/" else ""
  | _ :: _ =>
    let body := match raw with | '/' :: t => t | l => l
    let segs := dotNorm [] (splitList '/' body)
    ⟨'/' :: List.intercalate ['/'] segs⟩

/-- Parse the path-and-query tail that follows an authority. -/
def parseTail (special : Bool) (after : List Char) : String × String :=
  let raw := after.takeWhile (fun c => c != '?' && c != '#')
  let raw2 := if special then raw.map (fun c => if c = '\\' then '/' else c) else raw
  let rest := after.drop raw.length
  let search :=
    match rest with
    | '?' :: t => t.takeWhile (fun c => c != '#')
    | _ => []
  (normalizePath special raw2, ⟨search⟩)

/-- Model of the JavaScript `new URL(s)` constructor: `none` when the
constructor would throw. -/
def parseURL (s : String) : Option URLObj :=
  match takeScheme s.data with
  | none => none
  | some (pre, rest) =>
    if !schemeOk pre then none
    else
      let scheme : String := ⟨pre.map Char.toLower⟩
      if specialScheme scheme then
        let rest2 := rest.dropWhile (fun c => c = '/' || c = '\\')
        let auth := rest2.takeWhile (fun c => c != '/' && c != '\\' && c != '?' && c != '#')
        let after := rest2.drop auth.length
        match parseHostPort scheme auth with
        | none => none
        | some (host, port) =>
          if host = "" then none
          else
            let ps := parseTail true after
            some ⟨scheme, host, port, ps.1, ps.2⟩
      else
        match rest with
        | '/' :: '/' :: r =>
          let auth := r.takeWhile (fun c => c != '/' && c != '?' && c != '#')
          let after := r.drop auth.length
          match parseHostPort scheme auth with
          | none => none
          | some (host, port) =>
            let ps := parseTail false after
            some ⟨scheme, host, port, ps.1, ps.2⟩
        | _ =>
          let raw := rest.takeWhile (fun c => c != '?' && c != '#')
          let rest3 := rest.drop raw.length
          let search :=
            match rest3 with
            | '?' :: t => t.takeWhile (fun c => c != '#')
            | _ => []
          some ⟨scheme, "", "", ⟨raw⟩, ⟨search⟩⟩

/-- The `name=value` pairs of a query string, as `URLSearchParams` parses it. -/
def searchPairs (search : String) : List (String × String) :=
  ((splitList '&' search.data).filter (fun p => !p.isEmpty)).map fun p =>
    let nm := p.takeWhile (fun c => c != '=')
    let rest := p.drop nm.length
    let v : List Char := match rest with | [] => [] | _ :: t => t
    (⟨pctDecode nm⟩, ⟨pctDecode v⟩)

/-- JS `urlObj.searchParams.get(nm)` (first match, or null). -/
def spGet (u : URLObj) (nm : String) : Option String :=
  ((searchPairs u.search).find? (fun q => q.1 == nm)).map (fun q => q.2)

/-- JS `urlObj.searchParams.has(nm)`. -/
def spHas (u : URLObj) (nm : String) : Bool := (spGet u nm).isSome

/-- JS `urlObj.origin` for the URLs this code builds (scheme, host, explicit
non-default port). -/
def origin (u : URLObj) : String :=
  u.scheme ++ "://" ++ u.hostname ++ (if u.port = "" then "" else ":" ++ u.port)

/-! ## The program: data model -/

/-- The closed enumeration of supported video providers (`VideoProvider` in
`src/types`). -/
inductive VideoProvider
  | youtube | vimeo | xvideos | pornhub | gdrive | dropbox | terabox | telegram | catbox
deriving DecidableEq

/-- The module-level default thumbnail `DEFAULT_THUMBNAIL`. -/
def DEFAULT_THUMBNAIL : String :=
  "https://images.unsplash.com/photo-1611162616475-46b635cb6868?w=1920&auto=format&fit=crop&q=100&ixlib=rb-4.0.3"

/-- A JS `Map<string, string>` used as a cache, with insertion order kept. -/
abbrev Cache : Type := List (String × String)

/-- JS `map.get(k)` (as an `Option`). -/
def cacheGet (c : Cache) (k : String) : Option String :=
  match c with
  | [] => none
  | (k0, v0) :: t => if k0 = k then some v0 else cacheGet t k

/-- JS `map.set(k, v)`: overwrite in place, else append. -/
def cacheSet (c : Cache) (k v : String) : Cache :=
  match c with
  | [] => [(k, v)]
  | (k0, v0) :: t => if k0 = k then (k, v) :: t else (k0, v0) :: cacheSet t k v

/-- `map.get(k)` followed by the JS truthiness test the code applies to cached
thumbnails (`if (cachedThumbnail) ...`): an empty string is a cache miss. -/
def truthyGet (c : Cache) (k : String) : Option String :=
  match cacheGet c k with
  | some t => if t = "" then none else some t
  | none => none

/-- The two module-level caches of `config.ts`: the general `thumbnailCache`
and the Vimeo-specific `vimeoThumbnailCache`. -/
structure ThumbState where
  general : Cache
  vimeo : Cache
deriving DecidableEq

/-! ## The program: provider classifier (`getVideoProvider`) -/

/-- `getVideoProvider` (config.ts:538-581): hostname-substring classification
after parsing the URL; `null` on empty/unparsable input or no match. -/
def getVideoProvider (url : String) : Option VideoProvider :=
  if url = "" then none
  else
    match parseURL url with
    | none => none
    | some u =>
      if jsIncludes u.hostname "youtube.com" || jsIncludes u.hostname "youtu.be" then some .youtube
      else if jsIncludes u.hostname "vimeo.com" then some .vimeo
      else if jsIncludes u.hostname "xvideos.com" then some .xvideos
      else if jsIncludes u.hostname "pornhub.com" then some .pornhub
      else if jsIncludes u.hostname "drive.google.com" then some .gdrive
      else if jsIncludes u.hostname "dropbox.com" then some .dropbox
      else if jsIncludes u.hostname "terabox.com" then some .terabox
      else if jsIncludes u.hostname "t.me" then some .telegram
      else if jsIncludes u.hostname "catbox.moe" then some .catbox
      else none

/-- The classifier exactly as the specification words it (claim C1): the
parsed hostname is tested for the nine provider substrings in the stated
priority order; the empty string, unparsable strings and unmatched hostnames
give `null`. Stated independently of `getVideoProvider` to be compared with
it. -/
def providerOfSpec (url : String) : Option VideoProvider :=
  match parseURL url with
  | none => none
  | some u =>
    if jsIncludes u.hostname "youtube.com" || jsIncludes u.hostname "youtu.be" then some .youtube
    else if jsIncludes u.hostname "vimeo.com" then some .vimeo
    else if jsIncludes u.hostname "xvideos.com" then some .xvideos
    else if jsIncludes u.hostname "pornhub.com" then some .pornhub
    else if jsIncludes u.hostname "drive.google.com" then some .gdrive
    else if jsIncludes u.hostname "dropbox.com" then some .dropbox
    else if jsIncludes u.hostname "terabox.com" then some .terabox
    else if jsIncludes u.hostname "t.me" then some .telegram
    else if jsIncludes u.hostname "catbox.moe" then some .catbox
    else none

/-! ## The program: embed resolver (`getVideoEmbedUrl`) and helpers -/

/-- The YouTube video id as `getVideoEmbedUrl` extracts it (config.ts:593-600):
path for `youtu.be`, else the `v` query parameter, else the last path
segment; JS `|| ''` collapses a missing value to the empty string. -/
def ytEmbedId (u : URLObj) : String :=
  if jsIncludes u.hostname "youtu.be" then ⟨u.pathname.data.drop 1⟩
  else if spHas u "v" then (spGet u "v").getD ""
  else (jsSplit u.pathname '/').getLastD ""

/-- The YouTube video id as `getVideoThumbnail` extracts it (config.ts:727-732):
no last-path-segment fallback. -/
def ytThumbId (u : URLObj) : String :=
  if jsIncludes u.hostname "youtu.be" then ⟨u.pathname.data.drop 1⟩
  else if spHas u "v" then (spGet u "v").getD ""
  else ""

/-- First match of the regex `vimeo\.com\/(\d+)(?:\/([a-zA-Z0-9]+))?` at a
given position: the numeric id and the optional privacy hash. -/
def vimeoTryAt (l : List Char) : Option (String × Option String) :=
  if "vimeo.com/".data.isPrefixOf l then
    let rest := l.drop 10
    let ds := rest.takeWhile Char.isDigit
    if ds.isEmpty then none
    else
      let rest2 := rest.drop ds.length
      match rest2 with
      | '/' :: r2 =>
        let hs := r2.takeWhile (fun c => c.isAlpha || c.isDigit)
        if hs.isEmpty then some (⟨ds⟩, none) else some (⟨ds⟩, some ⟨hs⟩)
      | _ => some (⟨ds⟩, none)
  else none

/-- Scan a string position by position, as a JS regex `match` does, returning
the first successful parse. -/
def scanFind {β : Type u} (f : List Char → Option β) : List Char → Option β
  | [] => f []
  | c :: t =>
    match f (c :: t) with
    | some b => some b
    | none => scanFind f t

/-- JS `url.match(/vimeo\.com\/(\d+)(?:\/([a-zA-Z0-9]+))?/)`. -/
def vimeoMatch (url : String) : Option (String × Option String) :=
  scanFind vimeoTryAt url.data

/-- One position of the regex `video[._]([^/]+)` used for XVideos paths. -/
def xvideosTryAt (l : List Char) : Option String :=
  if "video".data.isPrefixOf l then
    match l.drop 5 with
    | c :: r =>
      if c = '.' || c = '_' then
        let cap := r.takeWhile (fun d => d != '/')
        if cap.isEmpty then none else some ⟨cap⟩
      else none
    | [] => none
  else none

/-- JS `pathname.match(/video[._]([^/]+)/)` (first capture group). -/
def xvideosMatch (p : String) : Option String := scanFind xvideosTryAt p.data

/-- One position of the regex `\/d\/([^/]+)` used for Google Drive URLs. -/
def driveTryAt (l : List Char) : Option String :=
  if "/d/".data.isPrefixOf l then
    let cap := (l.drop 3).takeWhile (fun d => d != '/')
    if cap.isEmpty then none else some ⟨cap⟩
  else none

/-- JS `url.match(/\/d\/([^/]+)/)` (first capture group). -/
def driveMatch (url : String) : Option String := scanFind driveTryAt url.data

/-- The raw Dropbox direct URL string (config.ts:663-667 and 428-432): host
substring rewritten, a literal `?dl=0`/`?dl=1` removed, truncated at the
first `&`. -/
def dropboxDirect (url : String) : String :=
  ⟨((splitList '&'
      (jsReplace (jsReplace (jsReplace url "www.dropbox.com" "dl.dropboxusercontent.com")
        "?dl=0" "") "?dl=1" "").data)).headD []⟩

/-- The final Dropbox media URL (config.ts:669-671 and 434-436): re-parse the
direct URL, keep `rlkey` if truthy, append `raw=1`; `none` when the rewritten
string no longer parses (the code would throw and fall to its catch). -/
def dropboxFinal (url : String) : Option String :=
  match parseURL (dropboxDirect url) with
  | none => none
  | some u2 =>
    let rl := spGet u2 "rlkey"
    some (origin u2 ++ u2.pathname ++
      (match rl with
       | some r => if r = "" then "?raw=1" else "?rlkey=" ++ r ++ "&raw=1"
       | none => "?raw=1"))

/-- The fixed Vimeo player query string (config.ts:620). -/
def vimeoPlayerParams (hash : Option String) : String :=
  "?h=" ++ hash.getD "" ++
  "&badge=0&autopause=0&player_id=0&app_id=58479&autoplay=0&muted=0&controls=1&loop=0&title=0&byline=0&portrait=0&background=0&transparent=0"

/-- `getVideoEmbedUrl` (config.ts:583-715). Every `throw` inside the
function's `try` is caught by its own `catch` and becomes `null`, so the
embedding returns an `Option`; no exception crosses the boundary. -/
def getVideoEmbedUrl (url : String) : Option (VideoProvider × String) :=
  if url = "" then none
  else
    match parseURL url with
    | none => none
    | some u =>
      if jsIncludes u.hostname "youtube.com" || jsIncludes u.hostname "youtu.be" then
        if ytEmbedId u = "" then none
        else some (.youtube, "https://www.youtube.com/embed/" ++ ytEmbedId u)
      else if jsIncludes u.hostname "vimeo.com" then
        match vimeoMatch url with
        | none => none
        | some (vid, hash) =>
          some (.vimeo, "https://player.vimeo.com/video/" ++ vid ++
            (match hash with | some h => "/" ++ h | none => "") ++ vimeoPlayerParams hash)
      else if jsIncludes u.hostname "xvideos.com" then
        match xvideosMatch u.pathname with
        | none => none
        | some vid =>
          some (.xvideos, "https://www.xvideos.com/embedframe/" ++
            ⟨vid.data.takeWhile (fun c => c != '/')⟩)
      else if jsIncludes u.hostname "pornhub.com" then
        match spGet u "viewkey" with
        | none => none
        | some vk => if vk = "" then none else some (.pornhub, "https://www.pornhub.com/embed/" ++ vk)
      else if jsIncludes u.hostname "drive.google.com" then
        match driveMatch url with
        | none => none
        | some fid => some (.gdrive, "https://drive.google.com/file/d/" ++ fid ++ "/preview")
      else if jsIncludes u.hostname "dropbox.com" then
        match dropboxFinal url with
        | none => none
        | some f => some (.dropbox, f)
      else if jsIncludes u.hostname "terabox.com" then some (.terabox, url)
      else if jsIncludes u.hostname "t.me" then
        if ((jsSplit u.pathname '/').filter (fun s => s != "")).length < 2 then none
        else
          some (.telegram, "https://t.me/" ++
            ((jsSplit u.pathname '/').filter (fun s => s != "")).getD 0 "" ++ "/" ++
            ((jsSplit u.pathname '/').filter (fun s => s != "")).getD 1 "")
      else if jsIncludes u.hostname "catbox.moe" then
        some (.catbox, "https://corsproxy.io/?" ++ encodeURIComponent url)
      else none

/-- The exact condition under which `getVideoEmbedUrl` yields `null`, stated
as the amended claim C4 words it: empty or unparsable input, a hostname that
matches no supported provider, or a matched provider whose required URL
component is missing. -/
def embedFails (url : String) : Bool :=
  if url = "" then true
  else
    match parseURL url with
    | none => true
    | some u =>
      if jsIncludes u.hostname "youtube.com" || jsIncludes u.hostname "youtu.be" then
        decide (ytEmbedId u = "")
      else if jsIncludes u.hostname "vimeo.com" then (vimeoMatch url).isNone
      else if jsIncludes u.hostname "xvideos.com" then (xvideosMatch u.pathname).isNone
      else if jsIncludes u.hostname "pornhub.com" then
        match spGet u "viewkey" with
        | none => true
        | some vk => decide (vk = "")
      else if jsIncludes u.hostname "drive.google.com" then (driveMatch url).isNone
      else if jsIncludes u.hostname "dropbox.com" then (dropboxFinal url).isNone
      else if jsIncludes u.hostname "terabox.com" then false
      else if jsIncludes u.hostname "t.me" then
        decide (((jsSplit u.pathname '/').filter (fun s => s != "")).length < 2)
      else if jsIncludes u.hostname "catbox.moe" then false
      else true

/-! ## The program: thumbnail resolvers -/

/-- `getVideoThumbnail` (config.ts:717-791): the pure (network-free) thumbnail
resolver; it reads the Vimeo cache for `vimeo.com` hosts and the general cache
for `dropbox.com`/`catbox.moe` hosts, and falls back to `DEFAULT_THUMBNAIL`
for parsable URLs that match no branch. -/
def getVideoThumbnail (st : ThumbState) (url : String) : Option String :=
  if url = "" then none
  else
    match parseURL url with
    | none => none
    | some u =>
      if jsIncludes u.hostname "youtube.com" || jsIncludes u.hostname "youtu.be" then
        if ytThumbId u = "" then none
        else some ("https://img.youtube.com/vi/" ++ ytThumbId u ++ "/maxresdefault.jpg")
      else if jsIncludes u.hostname "vimeo.com" then truthyGet st.vimeo url
      else if jsIncludes u.hostname "drive.google.com" then
        match driveMatch url with
        | none => none
        | some fid => some ("https://drive.google.com/thumbnail?id=" ++ fid ++ "&sz=w2000")
      else if jsIncludes u.hostname "pornhub.com" then
        match spGet u "viewkey" with
        | none => none
        | some vk =>
          if vk = "" then none
          else some ("https://di.phncdn.com/videos/" ++ vk ++ "/(m=eaAaGwObaaaa)(mh=xc_qR95oUCHcYYrV)16.jpg")
      else if jsIncludes u.hostname "xvideos.com" then
        match xvideosMatch u.pathname with
        | none => none
        | some vid0 =>
          let vid : String := ⟨vid0.data.takeWhile (fun c => c != '/')⟩
          some ("https://img-hw.xvideos-cdn.com/videos/thumbs169/" ++ charAt vid 0 ++ "/" ++
            charAt vid 1 ++ "/" ++ charAt vid 2 ++ "/" ++ vid ++ "/" ++ vid ++ "_169.jpg")
      else if jsIncludes u.hostname "dropbox.com" || jsIncludes u.hostname "catbox.moe" then
        truthyGet st.general url
      else some DEFAULT_THUMBNAIL

/-- Outcome of one `fetch` of a Vimeo metadata URL, with the JSON field the
code extracts (`thumbnail_url` for oEmbed, `data[0]?.thumbnail_large` for API
v2): `none` models a rejected fetch or an unreadable JSON body. -/
structure FetchResp where
  ok : Bool
  thumb : Option String
deriving DecidableEq

/-- `getVimeoThumbnail` (config.ts:363-413), with the network as an oracle
from fetched URL to response. Returns the resolved thumbnail (or `none` for
any caught failure), the updated Vimeo cache and the number of network
requests issued. -/
def getVimeoThumbnail (net : String → Option FetchResp) (vc : Cache) (url : String) :
    Option String × Cache × Nat :=
  match truthyGet vc url with
  | some t => (some t, vc, 0)
  | none =>
    match vimeoMatch url with
    | none => (none, vc, 0)
    | some (vid, hash) =>
      match (match hash with
        | some h =>
          match net ("https://vimeo.com/api/oembed.json?url=https://vimeo.com/" ++ vid ++ "/" ++ h) with
          | none => none
          | some resp => if resp.ok then some resp.thumb else none
        | none =>
          match net ("https://vimeo.com/api/v2/video/" ++ vid ++ ".json") with
          | none => none
          | some resp => if resp.ok then some resp.thumb else none : Option (Option String)) with
      | none => (none, vc, 1)
      | some (some t) =>
        if t = "" then (none, vc, 1)
        else (some (jsReplace t "_640" "_1920"), cacheSet vc url (jsReplace t "_640" "_1920"), 1)
      | some none => (none, vc, 1)

/-- `generateVideoThumbnail` (config.ts:415-536). `render` is the off-screen
video-frame oracle for Dropbox/Catbox media: `some t` is a captured frame
data-URL, `none` a load error or the 30-second metadata timeout (both of
which the code resolves to the default thumbnail). Returns the thumbnail and
the updated caches. -/
def generateVideoThumbnail (net : String → Option FetchResp) (render : String → Option String)
    (st : ThumbState) (videoUrl : String) (provider : VideoProvider) : String × ThumbState :=
  match truthyGet st.general videoUrl with
  | some t => (t, st)
  | none =>
    match provider with
    | .dropbox =>
      match dropboxFinal videoUrl with
      | none => (DEFAULT_THUMBNAIL, ⟨cacheSet st.general videoUrl DEFAULT_THUMBNAIL, st.vimeo⟩)
      | some finalUrl =>
        let t := (render finalUrl).getD DEFAULT_THUMBNAIL
        (t, ⟨cacheSet st.general videoUrl t, st.vimeo⟩)
    | .catbox =>
      let t := (render videoUrl).getD DEFAULT_THUMBNAIL
      (t, ⟨cacheSet st.general videoUrl t, st.vimeo⟩)
    | .vimeo =>
      match getVimeoThumbnail net st.vimeo videoUrl with
      | (some t, vc2, _) =>
        if t = "" then (DEFAULT_THUMBNAIL, ⟨cacheSet st.general videoUrl DEFAULT_THUMBNAIL, vc2⟩)
        else (t, ⟨cacheSet st.general videoUrl t, vc2⟩)
      | (none, vc2, _) => (DEFAULT_THUMBNAIL, ⟨cacheSet st.general videoUrl DEFAULT_THUMBNAIL, vc2⟩)
    | _ =>
      match getVideoThumbnail st videoUrl with
      | some t =>
        if t = "" then (DEFAULT_THUMBNAIL, st)
        else (t, ⟨cacheSet st.general videoUrl t, st.vimeo⟩)
      | none => (DEFAULT_THUMBNAIL, st)

/-! ## The program: image compression and batch upload -/

/-- The fields of a JS `File` object the code reads or builds. -/
structure JsFile where
  name : String
  size : Nat
  mime : String
deriving DecidableEq

/-- The observable work steps of `compressImage` (reading/decoding the file,
drawing to the canvas, re-encoding as JPEG). -/
inductive CompressOp
  | fileRead | imgDecode | canvasDraw | jpegEncode
deriving DecidableEq

/-- The browser-side collaborators of `compressImage`: `decode` is
FileReader + Image decoding (`none` = read or decode failure), `encode w h q`
is `canvas.toBlob` at the given dimensions and quality (`none` = a null blob),
`canvasCtx` is `canvas.getContext('2d')` availability. -/
structure ImgEnv where
  decode : JsFile → Option (Nat × Nat)
  encode : Nat → Nat → Rat → Option Nat
  canvasCtx : Bool

/-- JS `Math.round` for the non-negative values that arise here. -/
def ratRound (x : Rat) : Nat := (⌊x + 1 / 2⌋).toNat

/-- `compressImage` (config.ts:42-183), with the browser as an oracle; also
returns the list of work steps performed. A file at or under the
`maxSizeMB` threshold is resolved unchanged before any reading or decoding
happens. -/
def compressImage (env : ImgEnv) (file : JsFile) (maxWidth maxHeight : Nat) (quality : Rat)
    (maxSizeMB : Nat) : Except String JsFile × List CompressOp :=
  if file.size ≤ maxSizeMB * 1024 * 1024 then (Except.ok file, [])
  else
    match env.decode file with
    | none => (Except.error "Error al cargar la imagen", [.fileRead, .imgDecode])
    | some (w0, h0) =>
      let dims : Nat × Nat :=
        if maxWidth < w0 ∨ maxHeight < h0 then
          let ratio := min ((maxWidth : Rat) / w0) ((maxHeight : Rat) / h0)
          (ratRound (w0 * ratio), ratRound (h0 * ratio))
        else (w0, h0)
      if !env.canvasCtx then
        (Except.error "No se pudo obtener el contexto del canvas", [.fileRead, .imgDecode])
      else
        match env.encode dims.1 dims.2 quality with
        | none => (Except.error "Error al comprimir la imagen", [.fileRead, .imgDecode, .canvasDraw, .jpegEncode])
        | some bsize =>
          if maxSizeMB * 1024 * 1024 < bsize then
            let q2 := max (1 / 2 : Rat) (quality * (7 / 10))
            match env.encode dims.1 dims.2 q2 with
            | some bsize2 =>
              (Except.ok ⟨file.name, bsize2, "image/jpeg"⟩,
               [.fileRead, .imgDecode, .canvasDraw, .jpegEncode, .canvasDraw, .jpegEncode])
            | none =>
              (Except.ok ⟨file.name, bsize, "image/jpeg"⟩,
               [.fileRead, .imgDecode, .canvasDraw, .jpegEncode, .canvasDraw, .jpegEncode])
          else (Except.ok ⟨file.name, bsize, "image/jpeg"⟩, [.fileRead, .imgDecode, .canvasDraw, .jpegEncode])

/-- Progress states reported by the batch uploader's callback. -/
inductive UploadStatus
  | uploading | completed | error
deriving DecidableEq

/-- One progress callback invocation: `(index, percent, status)`. -/
abbrev UploadEv := Nat × Nat × UploadStatus

/-- The completion callback for one file: `(i, 100, 'completed')` on success,
`(i, 0, 'error')` on failure. -/
def doneEvOf (i : Nat) (r : Option String) : UploadEv :=
  match r with
  | some _ => (i, 100, .completed)
  | none => (i, 0, .error)

/-- The `'uploading'` events a batch fires when its promises start (each
`async` map body runs synchronously up to its first `await`). -/
def batchStartEvs (i0 n : Nat) : List UploadEv :=
  match n with
  | 0 => []
  | m + 1 => (i0, 0, .uploading) :: batchStartEvs (i0 + 1) m

/-- The completion events of a batch, in settlement order (modelled as batch
order; the claim under verification does not depend on inter-file order). -/
def batchDoneEvs (i0 : Nat) (rs : List (Option String)) : List UploadEv :=
  match rs with
  | [] => []
  | r :: t => doneEvOf i0 r :: batchDoneEvs (i0 + 1) t

/-- The `for (let i = 0; i < files.length; i += batchSize)` loop of
`uploadImagesInBatches` (config.ts:242-267), fuel-indexed because the JS loop
does not terminate when `batchSize` is `0` (the index never advances);
`none` means the fuel ran out before the loop finished. `upload` is the
outcome of `uploadToImgBB` per file (`none` = the upload threw, which the
per-file `catch` turns into a `null` result and an `'error'` event). -/
def uploadLoop {α : Type u} (upload : α → Option String) (files : List α) (batchSize : Nat) :
    Nat → Nat → Option (List (Option String) × List UploadEv)
  | _, 0 => none
  | i, fuel + 1 =>
    if i < files.length then
      match uploadLoop upload files batchSize (i + batchSize) fuel with
      | none => none
      | some (rs, es) =>
        some ((((files.drop i).take batchSize).map upload) ++ rs,
          (batchStartEvs i ((files.drop i).take batchSize).length ++
            batchDoneEvs i (((files.drop i).take batchSize).map upload)) ++ es)
    else some ([], [])

/-- `uploadImagesInBatches` (config.ts:234-270): the results array (per-file
URL or `null`) and the progress events, run with enough fuel for any
`batchSize ≥ 1`. -/
def uploadImagesInBatches {α : Type u} (upload : α → Option String) (files : List α)
    (batchSize : Nat) : Option (List (Option String) × List UploadEv) :=
  uploadLoop upload files batchSize 0 (files.length + 1)

/-! ## Concrete oracles used by closed statements -/

/-- A network oracle serving the API v2 metadata of Vimeo video `123456` with
a `thumbnail_large` of `.../foo_640.jpg`, as in claim C2. -/
def vimeoNetC2 : String → Option FetchResp := fun s =>
  if s = "https://vimeo.com/api/v2/video/123456.json" then
    some ⟨true, some "https://i.vimeocdn.com/video/foo_640.jpg"⟩
  else none

/-- A network oracle on which every fetch rejects. -/
def netDown : String → Option FetchResp := fun _ => none

/-- A render oracle on which every video load fails (or times out). -/
def renderDown : String → Option String := fun _ => none

/-- A per-file upload outcome used by closed statements: even-indexed files
upload successfully, odd-indexed uploads fail. -/
def uploadC7 : Nat → Option String := fun n => if n % 2 = 0 then some "u" else none

/-! ## Helper lemmas -/

theorem parseURL_ne_empty {url : String} {u : URLObj} (hp : parseURL url = some u) :
    url ≠ "" := by
  intro h
  rw [h, show parseURL "" = none from rfl] at hp
  exact Option.noConfusion hp

theorem cacheGet_set_ne (c : Cache) (u v k : String) (hk : k ≠ u) :
    cacheGet (cacheSet c u v) k = cacheGet c k := by
  induction c with
  | nil => simp [cacheSet, cacheGet, Ne.symm hk]
  | cons p t ih =>
    obtain ⟨k0, v0⟩ := p
    by_cases h0 : k0 = u
    · subst h0
      simp [cacheSet, cacheGet, Ne.symm hk]
    · simp only [cacheSet, if_neg h0, cacheGet]
      by_cases h1 : k0 = k <;> simp [h1, ih]

theorem getVimeoThumbnail_vc_frame (net : String → Option FetchResp) (vc : Cache)
    (url k : String) (hk : k ≠ url) :
    cacheGet (getVimeoThumbnail net vc url).2.1 k = cacheGet vc k := by
  unfold getVimeoThumbnail
  split
  · rfl
  · split
    · rfl
    · split
      · rfl
      · split
        · rfl
        · exact cacheGet_set_ne vc url _ k hk
      · rfl

theorem getVimeoThumbnail_none_vc (net : String → Option FetchResp) (vc : Cache) (url : String)
    (h : (getVimeoThumbnail net vc url).1 = none) :
    (getVimeoThumbnail net vc url).2.1 = vc := by
  unfold getVimeoThumbnail at h ⊢
  split at h
  · exact absurd h (by simp)
  · split at h
    · rfl
    · split at h
      · rfl
      · rename_i t heq
        by_cases ht : t = ""
        · simp [ht]
        · rw [if_neg ht] at h
          exact absurd h (by simp)
      · rfl

/-! ## Claim theorems -/

/-- C1: for every URL string, `getVideoProvider` classifies exactly as the
specification states: after parsing, the hostname is tested for the nine
provider substrings in the stated priority order, and the empty string,
unparsable strings and parsable URLs whose hostname contains none of the
substrings all yield `null`. -/
theorem getVideoProvider_eq_providerOfSpec (url : String) :
    getVideoProvider url = providerOfSpec url := by
  unfold getVideoProvider providerOfSpec
  by_cases h : url = ""
  · subst h; rfl
  · simp [h]

/-- C2: with the network modelled as an oracle whose API-v2 response for video
`123456` carries `thumbnail_large = .../foo_640.jpg`, `getVimeoThumbnail` on
`https://vimeo.com/123456` (no privacy hash) returns `.../foo_1920.jpg` (the
`_640` replaced by `_1920`), writes that value into the Vimeo cache keyed by
the input URL after one request, and a second call with the same URL answers
from the cache with zero further requests. -/
theorem getVimeoThumbnail_api_v2_flow :
    getVimeoThumbnail vimeoNetC2 [] "https://vimeo.com/123456" =
      (some "https://i.vimeocdn.com/video/foo_1920.jpg",
       [("https://vimeo.com/123456", "https://i.vimeocdn.com/video/foo_1920.jpg")], 1) ∧
    getVimeoThumbnail vimeoNetC2
        [("https://vimeo.com/123456", "https://i.vimeocdn.com/video/foo_1920.jpg")]
        "https://vimeo.com/123456" =
      (some "https://i.vimeocdn.com/video/foo_1920.jpg",
       [("https://vimeo.com/123456", "https://i.vimeocdn.com/video/foo_1920.jpg")], 0) :=
  ⟨rfl, rfl⟩

/-- C5: `getVideoEmbedUrl` on the exact Dropbox share link rewrites the host
to the direct-content host, drops the `dl` flag, keeps `rlkey` and appends
`raw=1`. -/
theorem getVideoEmbedUrl_dropbox_example :
    getVideoEmbedUrl "https://www.dropbox.com/s/abc/file.mp4?rlkey=XYZ&dl=0" =
      some (.dropbox, "https://dl.dropboxusercontent.com/s/abc/file.mp4?rlkey=XYZ&raw=1") := rfl

/-- C6: a file whose size is under the `maxSizeMB` threshold is resolved by
`compressImage` as the very same file object, with no read, decode, draw or
re-encode step performed. -/
theorem compressImage_small_identity (env : ImgEnv) (file : JsFile)
    (maxWidth maxHeight : Nat) (quality : Rat) (maxSizeMB : Nat)
    (h : file.size < maxSizeMB * 1024 * 1024) :
    compressImage env file maxWidth maxHeight quality maxSizeMB = (Except.ok file, []) := by
  unfold compressImage
  rw [if_pos (Nat.le_of_lt h)]

/-- Witness for C6 at a concrete 100-byte file and the default 2 MB bound. -/
theorem compressImage_small_identity_witness :
    (JsFile.mk "a.png" 100 "image/png").size < 2 * 1024 * 1024 ∧
    compressImage ⟨fun _ => none, fun _ _ _ => none, true⟩ ⟨"a.png", 100, "image/png"⟩
      2000 3000 (17 / 20) 2 = (Except.ok ⟨"a.png", 100, "image/png"⟩, []) :=
  ⟨by decide,
   compressImage_small_identity ⟨fun _ => none, fun _ _ _ => none, true⟩
     ⟨"a.png", 100, "image/png"⟩ 2000 3000 (17 / 20) 2 (by decide)⟩

/-- C8: a `youtube.com` URL (not `youtu.be`) without a `v` query parameter but
with a non-empty last path segment embeds via the last-path-segment fallback,
while `getVideoThumbnail`, which has no such fallback, returns `null` for the
same URL (whatever the caches hold). -/
theorem youtube_embed_vs_thumbnail (st : ThumbState) (url : String) (u : URLObj)
    (hp : parseURL url = some u)
    (hy : jsIncludes u.hostname "youtube.com" = true)
    (hb : jsIncludes u.hostname "youtu.be" = false)
    (hv : spHas u "v" = false)
    (hseg : (jsSplit u.pathname '/').getLastD "" ≠ "") :
    getVideoEmbedUrl url =
      some (.youtube, "https://www.youtube.com/embed/" ++ (jsSplit u.pathname '/').getLastD "") ∧
    getVideoThumbnail st url = none := by
  have hne : url ≠ "" := parseURL_ne_empty hp
  have hid : ytEmbedId u = (jsSplit u.pathname '/').getLastD "" := by
    unfold ytEmbedId
    simp [hb, hv]
  have hidT : ytThumbId u = "" := by
    unfold ytThumbId
    simp [hb, hv]
  have hseg2 : ¬(jsSplit u.pathname '/').getLast?.getD "" = "" := by
    simpa [List.getLastD_eq_getLast?] using hseg
  unfold getVideoEmbedUrl getVideoThumbnail
  simp [hne, hp, hy, hid, hidT, hseg2]

/-- Witness for C8 at `https://www.youtube.com/live/abc123`. -/
theorem youtube_embed_vs_thumbnail_witness :
    getVideoEmbedUrl "https://www.youtube.com/live/abc123" =
      some (.youtube, "https://www.youtube.com/embed/" ++
        (jsSplit (URLObj.pathname ⟨"https", "www.youtube.com", "", "/live/abc123", ""⟩) '/').getLastD "") ∧
    getVideoThumbnail ⟨[], []⟩ "https://www.youtube.com/live/abc123" = none :=
  youtube_embed_vs_thumbnail ⟨[], []⟩ "https://www.youtube.com/live/abc123"
    ⟨"https", "www.youtube.com", "", "/live/abc123", ""⟩ rfl rfl rfl rfl (by decide)

/-- C9: a parsable URL whose hostname contains none of the nine provider
substrings still gets the fixed default thumbnail from `getVideoThumbnail`,
even though `getVideoProvider` classifies it as `null`. -/
theorem unsupported_host_default_thumbnail (st : ThumbState) (url : String) (u : URLObj)
    (hp : parseURL url = some u)
    (h1 : jsIncludes u.hostname "youtube.com" = false)
    (h2 : jsIncludes u.hostname "youtu.be" = false)
    (h3 : jsIncludes u.hostname "vimeo.com" = false)
    (h4 : jsIncludes u.hostname "xvideos.com" = false)
    (h5 : jsIncludes u.hostname "pornhub.com" = false)
    (h6 : jsIncludes u.hostname "drive.google.com" = false)
    (h7 : jsIncludes u.hostname "dropbox.com" = false)
    (h8 : jsIncludes u.hostname "terabox.com" = false)
    (h9 : jsIncludes u.hostname "t.me" = false)
    (h10 : jsIncludes u.hostname "catbox.moe" = false) :
    getVideoThumbnail st url = some DEFAULT_THUMBNAIL ∧ getVideoProvider url = none := by
  have hne : url ≠ "" := parseURL_ne_empty hp
  unfold getVideoThumbnail getVideoProvider
  simp [hne, hp, h1, h2, h3, h4, h5, h6, h7, h8, h9, h10]

/-- Witness for C9 at `https://example.com/x`. -/
theorem unsupported_host_default_thumbnail_witness :
    getVideoThumbnail ⟨[], []⟩ "https://example.com/x" = some DEFAULT_THUMBNAIL ∧
    getVideoProvider "https://example.com/x" = none :=
  unsupported_host_default_thumbnail ⟨[], []⟩ "https://example.com/x"
    ⟨"https", "example.com", "", "/x", ""⟩ rfl rfl rfl rfl rfl rfl rfl rfl rfl rfl rfl

/-- C10: a call to `generateVideoThumbnail` with input URL `u` touches the two
caches only at key `u` — every other key reads the same before and after —
and when `u` is already present in the general cache (present in the sense of
the code's cache-hit test: mapped to a non-empty value) the call changes
neither cache at all. -/
theorem generateVideoThumbnail_frame (net : String → Option FetchResp)
    (render : String → Option String) (st : ThumbState) (u : String) (p : VideoProvider) :
    (∀ k, k ≠ u →
        cacheGet (generateVideoThumbnail net render st u p).2.general k = cacheGet st.general k ∧
        cacheGet (generateVideoThumbnail net render st u p).2.vimeo k = cacheGet st.vimeo k) ∧
    (∀ t, truthyGet st.general u = some t → (generateVideoThumbnail net render st u p).2 = st) := by
  constructor
  · intro k hk
    unfold generateVideoThumbnail
    cases hg : truthyGet st.general u with
    | some t => simp
    | none =>
      cases p
      case vimeo =>
        rcases hr : getVimeoThumbnail net st.vimeo u with ⟨r1, vc2, n⟩
        have hf := getVimeoThumbnail_vc_frame net st.vimeo u k hk
        rw [hr] at hf
        cases r1 with
        | some t =>
          by_cases ht : t = "" <;> simp [hr, ht, hf, cacheGet_set_ne st.general u _ k hk]
        | none => simp [hr, hf, cacheGet_set_ne st.general u _ k hk]
      case dropbox =>
        cases hd : dropboxFinal u <;>
          simp [hd, cacheGet_set_ne st.general u _ k hk]
      case catbox => simp [cacheGet_set_ne st.general u _ k hk]
      all_goals
        cases hT : getVideoThumbnail st u with
        | some t =>
          by_cases ht : t = "" <;> simp [hT, ht, cacheGet_set_ne st.general u _ k hk]
        | none => simp [hT]
  · intro t ht
    unfold generateVideoThumbnail
    rw [ht]

/-- Witness for C10: a concrete state holding key `"a"`, probed at the
distinct key `"b"`, for a Dropbox call at key `"a"`. -/
theorem generateVideoThumbnail_frame_witness :
    (cacheGet (generateVideoThumbnail netDown renderDown ⟨[("a", "t")], []⟩ "a"
        .dropbox).2.general "b" = cacheGet [("a", "t")] "b" ∧
      cacheGet (generateVideoThumbnail netDown renderDown ⟨[("a", "t")], []⟩ "a"
        .dropbox).2.vimeo "b" = cacheGet ([] : Cache) "b") ∧
    (generateVideoThumbnail netDown renderDown ⟨[("a", "t")], []⟩ "a" .dropbox).2 =
      (⟨[("a", "t")], []⟩ : ThumbState) :=
  ⟨(generateVideoThumbnail_frame netDown renderDown ⟨[("a", "t")], []⟩ "a" .dropbox).1 "b"
      (by decide),
   (generateVideoThumbnail_frame netDown renderDown ⟨[("a", "t")], []⟩ "a" .dropbox).2 "t" rfl⟩

/-- C3 counterexample: for the youtube-provider URL
`https://www.youtube.com/watch` (no video id, so thumbnail resolution fails)
`generateVideoThumbnail` does return the default thumbnail, but it leaves the
general cache untouched — the failure is not recorded, so the next call is
not a cache hit, contradicting the claim. -/
theorem generateVideoThumbnail_failure_not_cached_cex :
    generateVideoThumbnail netDown renderDown ⟨[], []⟩ "https://www.youtube.com/watch" .youtube =
      (DEFAULT_THUMBNAIL, ⟨[], []⟩) ∧
    cacheGet (generateVideoThumbnail netDown renderDown ⟨[], []⟩ "https://www.youtube.com/watch"
        .youtube).2.general "https://www.youtube.com/watch" = none :=
  ⟨rfl, rfl⟩

/-- C3 (amended): when thumbnail resolution fails and the URL is not already
cached, `generateVideoThumbnail` returns the default thumbnail; for the
dropbox, catbox and vimeo providers it also records the default in the
general cache (so later calls are cache hits), but for every other provider a
failed resolution (`getVideoThumbnail` returning `null`) leaves both caches
unchanged. -/
theorem generateVideoThumbnail_failure_policy (net : String → Option FetchResp)
    (render : String → Option String) (st : ThumbState) (url : String) (p : VideoProvider)
    (hmiss : truthyGet st.general url = none) :
    ((p = .dropbox ∨ p = .catbox) → (∀ s, render s = none) →
      generateVideoThumbnail net render st url p =
        (DEFAULT_THUMBNAIL, ⟨cacheSet st.general url DEFAULT_THUMBNAIL, st.vimeo⟩)) ∧
    (p = .vimeo → (getVimeoThumbnail net st.vimeo url).1 = none →
      generateVideoThumbnail net render st url p =
        (DEFAULT_THUMBNAIL, ⟨cacheSet st.general url DEFAULT_THUMBNAIL, st.vimeo⟩)) ∧
    (p ≠ .dropbox → p ≠ .catbox → p ≠ .vimeo → getVideoThumbnail st url = none →
      generateVideoThumbnail net render st url p = (DEFAULT_THUMBNAIL, st)) := by
  refine ⟨?_, ?_, ?_⟩
  · rintro (rfl | rfl) hrender
    · unfold generateVideoThumbnail
      rw [hmiss]
      cases hd : dropboxFinal url with
      | none => rfl
      | some f => simp [hrender f]
    · unfold generateVideoThumbnail
      rw [hmiss]
      simp [hrender url]
  · rintro rfl hvfail
    have hvc := getVimeoThumbnail_none_vc net st.vimeo url hvfail
    unfold generateVideoThumbnail
    rw [hmiss]
    rcases hr : getVimeoThumbnail net st.vimeo url with ⟨r1, vc2, n⟩
    rw [hr] at hvfail hvc
    simp only at hvfail hvc
    subst hvfail
    subst hvc
    rfl
  · intro hd hc hv hfail
    unfold generateVideoThumbnail
    rw [hmiss]
    cases p <;> simp_all [hfail]

/-- Witness for the amended C3: the vimeo clause at a concrete URL with the
network down, and the non-caching clause at a concrete youtube URL. -/
theorem generateVideoThumbnail_failure_policy_witness :
    generateVideoThumbnail netDown renderDown ⟨[], []⟩ "https://vimeo.com/1" .vimeo =
      (DEFAULT_THUMBNAIL, ⟨cacheSet [] "https://vimeo.com/1" DEFAULT_THUMBNAIL, []⟩) ∧
    generateVideoThumbnail netDown renderDown ⟨[], []⟩ "https://www.youtube.com/watch" .youtube =
      (DEFAULT_THUMBNAIL, ⟨[], []⟩) :=
  ⟨(generateVideoThumbnail_failure_policy netDown renderDown ⟨[], []⟩ "https://vimeo.com/1"
      .vimeo rfl).2.1 rfl rfl,
   (generateVideoThumbnail_failure_policy netDown renderDown ⟨[], []⟩
      "https://www.youtube.com/watch" .youtube rfl).2.2 (by decide) (by decide) (by decide) rfl⟩

/-- C4 counterexample: `https://example.com/` is non-empty, parses as a URL
and has no provider-specific required field at all, yet `getVideoEmbedUrl`
returns `null` for it — the claim's "otherwise returns a provider/embedUrl
pair" clause fails for parsable URLs whose hostname matches no provider. -/
theorem getVideoEmbedUrl_unsupported_host_cex :
    (parseURL "https://example.com/").isSome = true ∧
    getVideoEmbedUrl "https://example.com/" = none :=
  ⟨rfl, rfl⟩

/-- C4 (amended): `getVideoEmbedUrl` is a total function (every internal throw
is caught, so no exception crosses its boundary) and it returns `null`
exactly when the input is empty or unparsable, the hostname matches no
supported provider, or the matched provider's required component is missing
(youtube: no extractable id; vimeo: no `vimeo.com/<digits>` match; xvideos:
no `video[._]id` path segment; pornhub: missing or empty `viewkey`;
gdrive: no `/d/<id>` segment; dropbox: rewritten URL unparsable; telegram:
fewer than two path segments); otherwise it returns a provider/embed pair. -/
theorem getVideoEmbedUrl_none_iff (url : String) :
    getVideoEmbedUrl url = none ↔ embedFails url = true := by
  have hB : (getVideoEmbedUrl url).isNone = embedFails url := by
    unfold getVideoEmbedUrl embedFails
    by_cases h0 : url = ""
    · simp [h0]
    · simp only [if_neg h0]
      cases hp : parseURL url with
      | none => rfl
      | some u =>
        dsimp only
        by_cases q1 : (jsIncludes u.hostname "youtube.com" || jsIncludes u.hostname "youtu.be") = true
        · simp only [if_pos q1]
          by_cases q2 : ytEmbedId u = ""
          · simp only [if_pos q2]
            exact (decide_eq_true q2).symm
          · simp only [if_neg q2]
            exact (decide_eq_false q2).symm
        · simp only [if_neg q1]
          by_cases q3 : jsIncludes u.hostname "vimeo.com" = true
          · simp only [if_pos q3]
            cases vimeoMatch url with
            | none => rfl
            | some pr =>
              obtain ⟨vid, hs⟩ := pr
              rfl
          · simp only [if_neg q3]
            by_cases q4 : jsIncludes u.hostname "xvideos.com" = true
            · simp only [if_pos q4]
              cases xvideosMatch u.pathname with
              | none => rfl
              | some vid => rfl
            · simp only [if_neg q4]
              by_cases q5 : jsIncludes u.hostname "pornhub.com" = true
              · simp only [if_pos q5]
                cases spGet u "viewkey" with
                | none => rfl
                | some vk =>
                  by_cases hv : vk = ""
                  · simp only [if_pos hv]
                    exact (decide_eq_true hv).symm
                  · simp only [if_neg hv]
                    exact (decide_eq_false hv).symm
              · simp only [if_neg q5]
                by_cases q6 : jsIncludes u.hostname "drive.google.com" = true
                · simp only [if_pos q6]
                  cases driveMatch url with
                  | none => rfl
                  | some fid => rfl
                · simp only [if_neg q6]
                  by_cases q7 : jsIncludes u.hostname "dropbox.com" = true
                  · simp only [if_pos q7]
                    cases dropboxFinal url with
                    | none => rfl
                    | some f => rfl
                  · simp only [if_neg q7]
                    by_cases q8 : jsIncludes u.hostname "terabox.com" = true
                    · simp only [if_pos q8]
                      rfl
                    · simp only [if_neg q8]
                      by_cases q9 : jsIncludes u.hostname "t.me" = true
                      · simp only [if_pos q9]
                        by_cases q10 :
                            ((jsSplit u.pathname '/').filter (fun s => s != "")).length < 2
                        · simp only [if_pos q10]
                          exact (decide_eq_true q10).symm
                        · simp only [if_neg q10]
                          exact (decide_eq_false q10).symm
                      · simp only [if_neg q9]
                        by_cases q11 : jsIncludes u.hostname "catbox.moe" = true
                        · simp only [if_pos q11]
                          rfl
                        · simp only [if_neg q11]
                          rfl
  rw [← Option.isNone_iff_eq_none, hB]

theorem batchStartEvs_split :
    ∀ (k i0 n : Nat), k < n →
      ∃ pre post, batchStartEvs i0 n = pre ++ (i0 + k, 0, UploadStatus.uploading) :: post := by
  intro k
  induction k with
  | zero =>
    intro i0 n hn
    cases n with
    | zero => omega
    | succ m => exact ⟨[], batchStartEvs (i0 + 1) m, by simp [batchStartEvs]⟩
  | succ k ih =>
    intro i0 n hn
    cases n with
    | zero => omega
    | succ m =>
      obtain ⟨pre, post, hsplit⟩ := ih (i0 + 1) m (by omega)
      have harith : i0 + 1 + k = i0 + (k + 1) := by omega
      rw [harith] at hsplit
      exact ⟨(i0, 0, .uploading) :: pre, post, by simp [batchStartEvs, hsplit]⟩

theorem batchDoneEvs_mem :
    ∀ (k : Nat) (rs : List (Option String)) (i0 : Nat), k < rs.length →
      doneEvOf (i0 + k) (rs.getD k none) ∈ batchDoneEvs i0 rs := by
  intro k
  induction k with
  | zero =>
    intro rs i0 h
    cases rs with
    | nil => simp at h
    | cons r t => exact List.mem_cons_self _ _
  | succ k ih =>
    intro rs i0 h
    cases rs with
    | nil => simp at h
    | cons r t =>
      have hmem := ih t (i0 + 1) (by simpa using h)
      have harith : i0 + 1 + k = i0 + (k + 1) := by omega
      rw [harith] at hmem
      exact List.mem_cons_of_mem _ hmem

theorem uploadLoop_spec {α : Type u} (upload : α → Option String) (files : List α) (b : Nat)
    (hb : 1 ≤ b) :
    ∀ (fuel i : Nat), files.length - i < fuel →
      ∃ evs, uploadLoop upload files b i fuel = some ((files.drop i).map upload, evs) ∧
        ∀ j (hj : j < files.length), i ≤ j →
          ∃ pre post, evs = pre ++ (j, 0, UploadStatus.uploading) :: post ∧
            doneEvOf j (upload (files.get ⟨j, hj⟩)) ∈ post := by
  intro fuel
  induction fuel with
  | zero => intro i h; omega
  | succ fuel ih =>
    intro i h
    by_cases hi : i < files.length
    · obtain ⟨evs, hloop, hprop⟩ := ih (i + b) (by omega)
      have hdd : (files.drop i).drop b = files.drop (i + b) := List.drop_drop b i files
      have hsplit : ((files.drop i).take b).map upload ++ (files.drop (i + b)).map upload
          = (files.drop i).map upload := by
        rw [← hdd, ← List.map_append, List.take_append_drop]
      refine ⟨(batchStartEvs i ((files.drop i).take b).length ++
               batchDoneEvs i (((files.drop i).take b).map upload)) ++ evs, ?_, ?_⟩
      · simp only [uploadLoop, if_pos hi, hloop]
        rw [hsplit]
      · intro j hj hij
        by_cases hjb : j < i + b
        · obtain ⟨k, rfl⟩ : ∃ k, j = i + k := ⟨j - i, by omega⟩
          have hklen : k < ((files.drop i).take b).length := by
            simp only [List.length_take, List.length_drop]
            omega
          obtain ⟨pre, post, hse⟩ := batchStartEvs_split k i ((files.drop i).take b).length hklen
          have hdone := batchDoneEvs_mem k (((files.drop i).take b).map upload) i
            (by simpa using hklen)
          have hres : (((files.drop i).take b).map upload).getD k none
              = upload (files.get ⟨i + k, hj⟩) := by
            have hlen : k < (((files.drop i).take b).map upload).length := by simpa using hklen
            rw [List.getD_eq_getElem?_getD, List.getElem?_eq_getElem hlen]
            simp
          rw [hres] at hdone
          refine ⟨pre, post ++ batchDoneEvs i (((files.drop i).take b).map upload) ++ evs,
            ?_, ?_⟩
          · rw [hse]
            simp [List.append_assoc]
          · simp only [List.mem_append]
            exact Or.inl (Or.inr hdone)
        · obtain ⟨pre, post, hse, hmem⟩ := hprop j hj (by omega)
          refine ⟨(batchStartEvs i ((files.drop i).take b).length ++
                   batchDoneEvs i (((files.drop i).take b).map upload)) ++ pre, post, ?_, hmem⟩
          rw [hse]
          simp [List.append_assoc]
    · have hdrop : files.drop i = [] := List.drop_eq_nil_of_le (by omega)
      refine ⟨[], ?_, ?_⟩
      · simp only [uploadLoop, if_neg hi, hdrop, List.map_nil]
      · intro j hj hij
        omega

theorem uploadLoop_zero_batch_stuck :
    ∀ fuel : Nat, uploadLoop (fun _ : Unit => some "url") [()] 0 0 fuel = none := by
  intro fuel
  induction fuel with
  | zero => rfl
  | succ m ih => simp [uploadLoop, ih]

/-- C7 counterexample: with `batchSize = 0` and a single file the JS loop
never advances its index, so `uploadImagesInBatches` never completes and no
result array is produced (the fuelled embedding yields `none`; see
`uploadLoop_zero_batch_stuck` for every fuel), contradicting the claim for
that batch size. -/
theorem uploadImagesInBatches_zero_batch_cex :
    uploadImagesInBatches (fun _ : Unit => some "url") [()] 0 = none := rfl

/-- C7 (amended): for every `batchSize ≥ 1`, `uploadImagesInBatches` completes
with exactly one result per file — the upload's URL on success, `null` on
failure, a per-file failure aborting nothing — and the progress events
contain, for every index `j`, an `'uploading'` event followed later by the
matching `'completed'`/`'error'` event. -/
theorem uploadImagesInBatches_spec {α : Type u} (upload : α → Option String) (files : List α)
    (b : Nat) (hb : 1 ≤ b) :
    ∃ evs, uploadImagesInBatches upload files b = some (files.map upload, evs) ∧
      ∀ j (hj : j < files.length),
        ∃ pre post, evs = pre ++ (j, 0, UploadStatus.uploading) :: post ∧
          doneEvOf j (upload (files.get ⟨j, hj⟩)) ∈ post := by
  obtain ⟨evs, h1, h2⟩ := uploadLoop_spec upload files b hb (files.length + 1) 0 (by omega)
  refine ⟨evs, ?_, fun j hj => h2 j hj (Nat.zero_le _)⟩
  simpa [uploadImagesInBatches] using h1

/-- Witness for the amended C7: the specification's own scenario, 7 files with
`batchSize = 3` and a mix of failing and succeeding uploads. -/
theorem uploadImagesInBatches_spec_witness :
    1 ≤ 3 ∧
    ∃ evs, uploadImagesInBatches uploadC7 [0, 1, 2, 3, 4, 5, 6] 3 =
        some (([0, 1, 2, 3, 4, 5, 6] : List Nat).map uploadC7, evs) ∧
      ∀ j (hj : j < ([0, 1, 2, 3, 4, 5, 6] : List Nat).length),
        ∃ pre post, evs = pre ++ (j, 0, UploadStatus.uploading) :: post ∧
          doneEvOf j (uploadC7 (([0, 1, 2, 3, 4, 5, 6] : List Nat).get ⟨j, hj⟩)) ∈ post :=
  ⟨by decide, uploadImagesInBatches_spec uploadC7 [0, 1, 2, 3, 4, 5, 6] 3 (by decide)⟩
